import Mathlib

/-!
Verification development for the BCOS orchestration engine.

The Python sources under `src/core` and `src/utils` are shallowly embedded:
pure functions become Lean functions, mutating methods become explicit
state-passing functions, wall-clock timestamps (`datetime.now()`) become an
abstract tick (`Nat`) threaded in as a parameter, and Python's JSON-shaped
dictionaries become an insertion-ordered association list over a `Value` type.
-/

namespace BCOS

/-- JSON-shaped Python value, as passed around in the engine's payload
dictionaries (`src/core/models.py` treats payloads as opaque
string/number/bool/list/dict data). -/
inductive Value where
  | null : Value
  | vbool : Bool → Value
  | num : ℚ → Value
  | str : String → Value
  | vlist : List Value → Value
  | obj : List (String × Value) → Value

mutual

/-- Structural equality of two values (Python `==` on JSON-shaped data). -/
def Value.beq : Value → Value → Bool
  | .null, .null => true
  | .vbool a, .vbool b => a == b
  | .num a, .num b => a == b
  | .str a, .str b => a == b
  | .vlist xs, .vlist ys => Value.listBeq xs ys
  | .obj fs, .obj gs => Value.objBeq fs gs
  | _, _ => false

/-- Elementwise equality of two value lists. -/
def Value.listBeq : List Value → List Value → Bool
  | [], [] => true
  | x :: xs, y :: ys => Value.beq x y && Value.listBeq xs ys
  | _, _ => false

/-- Fieldwise equality of two dicts (insertion order included, as for the
embedding's ordered association lists). -/
def Value.objBeq : List (String × Value) → List (String × Value) → Bool
  | [], [] => true
  | (k, v) :: fs, (l, w) :: gs => k == l && Value.beq v w && Value.objBeq fs gs
  | _, _ => false

end

/-- Python truthiness (`bool(v)`): `None`, `False`, `0`, `""`, `[]`, and
an empty dict are falsy, everything else truthy. -/
def Value.pyTruthy : Value → Bool
  | .null => false
  | .vbool b => b
  | .num q => !(q == 0)
  | .str s => !(s == "")
  | .vlist xs => !xs.isEmpty
  | .obj fs => !fs.isEmpty

/-- Truthiness of an optional value (a Python parameter defaulting to
`None`). -/
def optTruthy : Option Value → Bool
  | none => false
  | some v => v.pyTruthy

/-- Truthiness of an optional string parameter. -/
def optStrTruthy : Option String → Bool
  | none => false
  | some s => !(s == "")

/-- Lookup in an insertion-ordered dict (`d[k]` / `k in d`). -/
def dictGet (d : List (String × Value)) (k : String) : Option Value :=
  (d.find? (fun kv => kv.1 == k)).map (fun kv => kv.2)

/-- Python dict assignment `d[k] = v`: overwrite in place if the key exists,
otherwise append, preserving insertion order. -/
def dictSet (d : List (String × Value)) (k : String) (v : Value) : List (String × Value) :=
  match d with
  | [] => [(k, v)]
  | kv :: rest => if kv.1 == k then (k, v) :: rest else kv :: dictSet rest k v

/-- Lookup `result.get(key, default)` on an opaque `Value` assumed to be a
dict (non-dict values yield the default). -/
def objGetD (v : Value) (k : String) (d : Value) : Value :=
  match v with
  | .obj fs => ((fs.find? (fun kv => kv.1 == k)).map (fun kv => kv.2)).getD d
  | _ => d

/-- Substring containment, Python's `needle in hay` for (non-empty) string
literals. -/
def strContains (hay needle : String) : Bool :=
  (hay.splitOn needle).length > 1

/-! ## `src/core/state_manager.py` -/

/-- Task record (`state_manager.Task` dataclass). Timestamps are abstract
ticks. -/
structure Task where
  id : String
  description : String
  phase : String
  skill : String
  dependencies : List String
  status : String
  result : Option Value
  error : Option String
  started_at : Option Nat
  completed_at : Option Nat

/-- A fresh `Task(...)` with the dataclass defaults for the trailing
fields. -/
def Task.mk0 (id description phase skill : String) (dependencies : List String) : Task :=
  { id := id, description := description, phase := phase, skill := skill,
    dependencies := dependencies, status := "pending", result := none,
    error := none, started_at := none, completed_at := none }

/-- The mutable state owned by `StateManager`. -/
structure StateManager where
  company_name : String
  company_website : String
  industry : String
  phase1_context : List (String × Value)
  phase2_context : List (String × Value)
  tasks : List Task
  current_phase : String
  started_at : Option Nat
  phase1_completed_at : Option Nat
  phase2_completed_at : Option Nat

/-- `StateManager.__init__`: empty company fields, the six fixed Phase-1
buckets and seven fixed Phase-2 buckets each holding an empty dict, no tasks,
phase `"phase1"`, no timestamps. -/
def initStateManager : StateManager :=
  { company_name := "", company_website := "", industry := "",
    phase1_context :=
      [("company_intelligence", .obj []), ("business_model_canvas", .obj []),
       ("value_chain", .obj []), ("org_structure", .obj []),
       ("market_intelligence", .obj []), ("competitor_intelligence", .obj [])],
    phase2_context :=
      [("swot", .obj []), ("porters_five_forces", .obj []), ("bcg_matrix", .obj []),
       ("blue_ocean", .obj []), ("pestel", .obj []), ("competitive_strategy", .obj []),
       ("sales_intelligence", .obj [])],
    tasks := [], current_phase := "phase1",
    started_at := none, phase1_completed_at := none, phase2_completed_at := none }

/-- `StateManager.add_task`: unconditional append. -/
def StateManager.add_task (s : StateManager) (t : Task) : StateManager :=
  { s with tasks := s.tasks ++ [t] }

/-- `StateManager.get_task`: first task with the given id, else `None`. -/
def StateManager.get_task (s : StateManager) (task_id : String) : Option Task :=
  s.tasks.find? (fun t => t.id == task_id)

/-- Replace the first list element whose id matches (the Python code mutates
the object returned by `get_task`, which is the first match). -/
def updateFirst (tasks : List Task) (task_id : String) (f : Task → Task) : List Task :=
  match tasks with
  | [] => []
  | t :: ts => if t.id == task_id then f t :: ts else t :: updateFirst ts task_id f

/-- The field updates `update_task_status` performs on the found task. -/
def applyStatusUpdate (status : String) (result : Option Value) (error : Option String)
    (now : Nat) (t : Task) : Task :=
  let t1 := { t with status := status }
  let t2 := if optTruthy result then { t1 with result := result } else t1
  let t3 := if optStrTruthy error then { t2 with error := error } else t2
  if status == "in_progress" && t3.started_at == none then
    { t3 with started_at := some now }
  else if status == "completed" || status == "failed" then
    { t3 with completed_at := some now }
  else t3

/-- `StateManager.update_task_status`: look the task up by id; when absent do
nothing; when present set the status unconditionally, store truthy
result/error, stamp `started_at` on a first `in_progress`, stamp
`completed_at` on `completed`/`failed`. -/
def StateManager.update_task_status (s : StateManager) (task_id status : String)
    (result : Option Value) (error : Option String) (now : Nat) : StateManager :=
  match s.get_task task_id with
  | none => s
  | some _ => { s with tasks := updateFirst s.tasks task_id (applyStatusUpdate status result error now) }

/-- The dictionary returned by `StateManager.get_summary`. -/
structure Summary where
  company : String
  current_phase : String
  total : Nat
  completed : Nat
  failed : Nat
  pending : Nat
  started_at : Option Nat
deriving DecidableEq

/-- `StateManager.get_summary`: total task count plus per-status counts for
the three statuses `completed`, `failed`, `pending`. -/
def StateManager.get_summary (s : StateManager) : Summary :=
  { company := s.company_name, current_phase := s.current_phase,
    total := s.tasks.length,
    completed := (s.tasks.filter (fun t => t.status == "completed")).length,
    failed := (s.tasks.filter (fun t => t.status == "failed")).length,
    pending := (s.tasks.filter (fun t => t.status == "pending")).length,
    started_at := s.started_at }

/-- The per-task dictionary written by `Task.to_dict` (ISO timestamps are
modelled as the tick itself). -/
structure TaskDict where
  id : String
  description : String
  phase : String
  skill : String
  dependencies : List String
  status : String
  result : Option Value
  error : Option String
  started_at : Option Nat
  completed_at : Option Nat

/-- `Task.to_dict`. -/
def Task.to_dict (t : Task) : TaskDict :=
  { id := t.id, description := t.description, phase := t.phase, skill := t.skill,
    dependencies := t.dependencies, status := t.status, result := t.result,
    error := t.error, started_at := t.started_at, completed_at := t.completed_at }

/-- The JSON file written by `StateManager.save_state` (fixed key order, so
equality of this structure is byte-identity of the file up to map-key
ordering). -/
structure SavedState where
  company_name : String
  company_website : String
  industry : String
  phase1_context : List (String × Value)
  phase2_context : List (String × Value)
  tasks : List TaskDict
  current_phase : String
  started_at : Option Nat
  phase1_completed_at : Option Nat
  phase2_completed_at : Option Nat

/-- `StateManager.save_state`. -/
def StateManager.save_state (s : StateManager) : SavedState :=
  { company_name := s.company_name, company_website := s.company_website,
    industry := s.industry, phase1_context := s.phase1_context,
    phase2_context := s.phase2_context, tasks := s.tasks.map Task.to_dict,
    current_phase := s.current_phase, started_at := s.started_at,
    phase1_completed_at := s.phase1_completed_at,
    phase2_completed_at := s.phase2_completed_at }

/-- `StateManager.load_state`: overwrite the company fields, the two context
buckets and the current phase from the file; rebuild each task from its dict
passing only id, description, phase, skill, dependencies, status, result and
error to the constructor, so `started_at`/`completed_at` take the dataclass
default `None`; the manager-level timestamps are not read at all. -/
def StateManager.load_state (s : StateManager) (d : SavedState) : StateManager :=
  { s with
    company_name := d.company_name, company_website := d.company_website,
    industry := d.industry, phase1_context := d.phase1_context,
    phase2_context := d.phase2_context, current_phase := d.current_phase,
    tasks := d.tasks.map (fun td =>
      ({ id := td.id, description := td.description, phase := td.phase,
         skill := td.skill, dependencies := td.dependencies, status := td.status,
         result := td.result, error := td.error,
         started_at := none, completed_at := none } : Task)) }

/-! ## `src/core/planner.py` (deterministic fallback plan) -/

/-- The skill identifier `Planner._default_phase2_tasks` assigns to a
framework name: a fixed mapping, with lowercase-and-dash slugification for
names outside it. -/
def frameworkSkill (framework : String) : String :=
  if framework == "SWOT Analysis" then "swot-analyzer"
  else if framework == "Porter\x27s Five Forces" then "porters-five-forces"
  else if framework == "BCG Matrix" then "bcg-matrix"
  else if framework == "Blue Ocean Strategy" then "blue-ocean-strategy"
  else if framework == "PESTEL Analysis" then "pestel-analyzer"
  else (framework.toLower).replace " " "-"

/-- `Planner._default_phase2_tasks`: one task per selected framework, ids
`phase2_task_1`, `phase2_task_2`, …, no dependencies. This is the
deterministic plan the planner returns whenever the language-model path
errors. -/
def defaultPhase2Tasks (frameworks : List String) : List Task :=
  (frameworks.enumFrom 1).map (fun p =>
    Task.mk0 ("phase2_task_" ++ toString p.1)
      ("Apply " ++ p.2 ++ " to generate strategic insights")
      "phase2" (frameworkSkill p.2) [])

/-! ## `src/core/validator.py` (dependency check) -/

/-- `Validator.check_dependencies_met`: true iff every dependency id is in
the completed-id list (vacuously true for no dependencies). -/
def checkDependenciesMet (t : Task) (completed_task_ids : List String) : Bool :=
  t.dependencies.all (fun d => completed_task_ids.contains d)

/-! ## `src/core/orchestrator.py`

The executor and the validator verdict both hinge on external collaborators
(skill modules calling HTTP providers, and the language model), so the
per-task executor result (the dict `execute_task` returns, an opaque
`Value`) and the validator verdict `(is_valid, feedback)` are passed in as
functions; the orchestrator's own control flow — the Phase-1-context
precondition check, task addition, the step budget, dependency skipping,
status updates and context-bucket routing — is embedded from the source. -/

/-- Result envelope returned by the orchestrator; the error envelope carries
only the `error` key, so every key is optional. -/
structure Envelope where
  error : Option String
  company : Option String
  phase1 : Option (List (String × Value))
  phase2 : Option (List (String × Value))
  summary : Option Summary
  analysis_type : Option String

/-- `BusinessContextOrchestrator._store_phase2_result`: route `result["data"]`
into the Phase-2 bucket picked by substring tests on the skill identifier,
falling back to a slot named by the skill itself. -/
def storePhase2Result (s : StateManager) (task : Task) (result : Value) : StateManager :=
  let data := objGetD result "data" (.obj [])
  let key :=
    if strContains task.skill "swot" then "swot"
    else if strContains task.skill "porter" then "porters_five_forces"
    else if strContains task.skill "bcg" then "bcg_matrix"
    else if strContains task.skill "blue-ocean" then "blue_ocean"
    else if strContains task.skill "pestel" then "pestel"
    else if strContains task.skill "competitive-strategy" then "competitive_strategy"
    else if strContains task.skill "sales-intelligence" then "sales_intelligence"
    else task.skill
  { s with phase2_context := dictSet s.phase2_context key data }

/-- Accumulator of the task loop in `run_phase2`: the state, the
orchestrator's global step counter, the completed-id list, and whether the
`break` on the step budget has fired. -/
structure Phase2Loop where
  state : StateManager
  current_step : Nat
  completed_ids : List String
  stopped : Bool

/-- One iteration of the `run_phase2` task loop: stop at the step budget
(`break`), skip on unmet dependencies (`continue`), otherwise mark
`in_progress`, obtain the executor result, count the step, and either store
the result and mark `completed` or mark `failed` with the validator
feedback. -/
def phase2TaskStep (execRes : Task → Value) (valid : Task → Value → Bool × String)
    (maxSteps now : Nat) (acc : Phase2Loop) (task : Task) : Phase2Loop :=
  if acc.stopped then acc
  else if maxSteps ≤ acc.current_step then { acc with stopped := true }
  else if !(checkDependenciesMet task acc.completed_ids) then acc
  else
    let st1 := acc.state.update_task_status task.id "in_progress" none none now
    let result := execRes task
    let verdict := valid task result
    if verdict.1 then
      let st2 := storePhase2Result st1 task result
      let st3 := st2.update_task_status task.id "completed" (some result) none now
      { state := st3, current_step := acc.current_step + 1,
        completed_ids := acc.completed_ids ++ [task.id], stopped := false }
    else
      let st2 := st1.update_task_status task.id "failed" none (some verdict.2) now
      { state := st2, current_step := acc.current_step + 1,
        completed_ids := acc.completed_ids, stopped := false }

/-- `BusinessContextOrchestrator.run_phase2`: add every planned task to the
state, run the task loop, and return the Phase-2 context bucket. -/
def runPhase2 (s : StateManager) (maxSteps currentStep : Nat) (plannedTasks : List Task)
    (execRes : Task → Value) (valid : Task → Value → Bool × String) (now : Nat) :
    StateManager × List (String × Value) :=
  let sAdded := plannedTasks.foldl StateManager.add_task s
  let final := plannedTasks.foldl (phase2TaskStep execRes valid maxSteps now)
    { state := sAdded, current_step := currentStep, completed_ids := [], stopped := false }
  (final.state, final.state.phase2_context)

/-- `BusinessContextOrchestrator.run_frameworks_only`: return the error
envelope when the `phase1_context` dict is empty (Python truthiness of the
dict), otherwise set the phase to `"phase2"`, run Phase 2, stamp
`phase2_completed_at` and return the full envelope with
`analysis_type = "frameworks"` and no error. -/
def runFrameworksOnly (s : StateManager) (maxSteps currentStep : Nat)
    (plannedTasks : List Task) (execRes : Task → Value)
    (valid : Task → Value → Bool × String) (now : Nat) : StateManager × Envelope :=
  if s.phase1_context.isEmpty then
    (s, { error := some "Business Overview required before running frameworks",
          company := none, phase1 := none, phase2 := none, summary := none,
          analysis_type := none })
  else
    let s1 := { s with current_phase := "phase2" }
    let r := runPhase2 s1 maxSteps currentStep plannedTasks execRes valid now
    let s2 := { r.1 with phase2_completed_at := some now }
    (s2, { error := none, company := some s2.company_name,
           phase1 := some s2.phase1_context, phase2 := some r.2,
           summary := some s2.get_summary, analysis_type := some "frameworks" })

/-! ## `src/core/models.py` -/

/-- `SourceType` enum. -/
inductive SourceType where
  | primary : SourceType
  | secondary : SourceType
  | tertiary : SourceType
  | verification : SourceType
deriving DecidableEq

/-- `ConfidenceLevel` enum. -/
inductive ConfidenceLevel where
  | very_high : ConfidenceLevel
  | high : ConfidenceLevel
  | medium : ConfidenceLevel
  | low : ConfidenceLevel
  | very_low : ConfidenceLevel
deriving DecidableEq

/-- `Source` dataclass; `date_accessed` is the tick at creation. Confidence
and reliability scores are modelled as rationals (the Python floats in play
are small decimal literals). -/
structure Source where
  url : String
  source_type : SourceType
  source_name : String
  date_accessed : Nat
  date_published : Option Nat
  reliability_score : ℚ

/-- `Conflict` dataclass. -/
structure Conflict where
  claim : String
  conflicting_values : List Value
  sources : List Source
  severity : String
  resolution : Option String

/-- `VerifiedFact` dataclass. -/
structure VerifiedFact where
  claim : String
  value : Value
  verified : Bool
  confidence : ℚ
  sources : List Source
  conflicts : List Conflict
  notes : Option String
  last_verified : Nat

/-- `VerifiedFact.confidence_level`: bucket the confidence score. -/
def confidenceLevel (confidence : ℚ) : ConfidenceLevel :=
  if 9/10 ≤ confidence then .very_high
  else if 3/4 ≤ confidence then .high
  else if 1/2 ≤ confidence then .medium
  else if 1/4 ≤ confidence then .low
  else .very_low

/-! ## `src/core/truth_engine.py`

`difflib.SequenceMatcher(None, a, b).ratio()` is a Python-standard-library
primitive, not repository code; the engine's functions take it as an explicit
parameter `sim : String → String → ℚ`. No theorem below depends on its
values. -/

/-- Per-type default reliability weights (`TruthEngine.source_reliability`). -/
def sourceReliability : SourceType → ℚ
  | .primary => 1
  | .secondary => 4/5
  | .tertiary => 3/5
  | .verification => 9/10

/-- An element of `sources_data`: the raw per-source dictionary, with the
fields the engine reads through `.get`, and its `data` payload map. -/
structure SourceData where
  url : Option String
  source_type : Option String
  source_name : Option String
  date_published : Option Nat
  reliability_score : Option ℚ
  data : List (String × Value)

/-- Parse of the `SourceType` enum constructor from a string
(`SourceType(value)`), `none` on `ValueError`. -/
def parseSourceType (s : String) : Option SourceType :=
  if s == "primary" then some .primary
  else if s == "secondary" then some .secondary
  else if s == "tertiary" then some .tertiary
  else if s == "verification" then some .verification
  else none

/-- `TruthEngine._create_source`: defaults `secondary` for a missing or
unrecognised type, `unknown` url, `Unknown Source` name, and the per-type
reliability weight when no explicit score is present. -/
def createSource (now : Nat) (sd : SourceData) : Source :=
  let st := (parseSourceType ((sd.source_type.getD "secondary").toLower)).getD .secondary
  { url := sd.url.getD "unknown", source_type := st,
    source_name := sd.source_name.getD "Unknown Source", date_accessed := now,
    date_published := sd.date_published,
    reliability_score := sd.reliability_score.getD (sourceReliability st) }

/-- Whitespace class of Python's ASCII `\s` (space, tab, newline, carriage
return, vertical tab, form feed). -/
def isPyWs (c : Char) : Bool :=
  c == ' ' || c == '\t' || c == '\n' || c == '\r' || c == Char.ofNat 11 || c == Char.ofNat 12

/-- Strip leading and trailing whitespace (`str.strip()`). -/
def stripWs (l : List Char) : List Char :=
  ((l.dropWhile isPyWs).reverse.dropWhile isPyWs).reverse

/-- Scan emitting one underscore per maximal whitespace run; the flag
records whether the previous character was part of a run already replaced. -/
def collapseWsAux : Bool → List Char → List Char
  | _, [] => []
  | prevWs, c :: cs =>
    if isPyWs c then
      if prevWs then collapseWsAux true cs else '_' :: collapseWsAux true cs
    else c :: collapseWsAux false cs

/-- Replace every maximal whitespace run by a single underscore
(`re.sub(r"\s+", "_", ·)`). -/
def collapseWsToUnderscore (l : List Char) : List Char :=
  collapseWsAux false l

/-- `TruthEngine._normalize_key`: lowercase, drop characters outside
`[a-z0-9\s]`, strip, collapse whitespace runs to `_`. -/
def normalizeKey (key : String) : String :=
  let lowered := key.data.map Char.toLower
  let kept := lowered.filter (fun c =>
    (decide (Char.toNat 'a' ≤ c.toNat) && decide (c.toNat ≤ Char.toNat 'z')) ||
    (decide (Char.toNat '0' ≤ c.toNat) && decide (c.toNat ≤ Char.toNat '9')) || isPyWs c)
  ⟨collapseWsToUnderscore (stripWs kept)⟩

/-- `TruthEngine._keys_similar` with its default threshold 0.8 (never
overridden at a call site). -/
def keysSimilar (sim : String → String → ℚ) (key1 key2 : String) : Bool :=
  decide (4/5 ≤ sim key1 key2)

mutual

/-- Rendering of a Python value by `repr` (the form `str` uses inside lists
and dicts); numeral rendering is approximated by the rational's print form,
which no theorem depends on. -/
def pyRepr : Value → String
  | .null => "None"
  | .vbool b => if b then "True" else "False"
  | .num q => toString q
  | .str s => "\x27" ++ s ++ "\x27"
  | .vlist xs => "[" ++ pyReprList xs ++ "]"
  | .obj fs => "\x7b" ++ pyReprObj fs ++ "\x7d"

def pyReprList : List Value → String
  | [] => ""
  | [x] => pyRepr x
  | x :: xs => pyRepr x ++ ", " ++ pyReprList xs

def pyReprObj : List (String × Value) → String
  | [] => ""
  | [(k, v)] => "\x27" ++ k ++ "\x27: " ++ pyRepr v
  | (k, v) :: fs => "\x27" ++ k ++ "\x27: " ++ pyRepr v ++ ", " ++ pyReprObj fs

end

/-- Python `str(value)`: a string renders as itself, anything else as its
`repr`. -/
def pyStr : Value → String
  | .str s => s
  | v => pyRepr v

/-- Tag distinguishing the Python runtime type of a value (`type(v)`). -/
def typeTag : Value → Nat
  | .null => 0
  | .vbool _ => 1
  | .num _ => 2
  | .str _ => 3
  | .vlist _ => 4
  | .obj _ => 5

/-- The string case of `_values_match` after the equality test: fuzzy match
at the fixed threshold 0.9 on case-folded strings. Also covers the
type-mismatch branch, which re-enters `_values_match` on the two
stringified values (they compare equal or fall to this same fuzzy case). -/
def strValuesMatch (sim : String → String → ℚ) (a b : String) : Bool :=
  a == b || decide (9/10 ≤ sim a.toLower b.toLower)

mutual

/-- `TruthEngine._values_match` at its fixed threshold 0.9: exact equality,
else stringified comparison on a type mismatch, else fuzzy match for
strings, elementwise match for equal-length lists, and false otherwise. -/
def valuesMatch (sim : String → String → ℚ) (v1 v2 : Value) : Bool :=
  if Value.beq v1 v2 then true
  else if !(typeTag v1 == typeTag v2) then strValuesMatch sim (pyStr v1) (pyStr v2)
  else match v1, v2 with
    | .str a, .str b => decide (9/10 ≤ sim a.toLower b.toLower)
    | .vlist xs, .vlist ys => xs.length == ys.length && valuesMatchList sim xs ys
    | _, _ => false

/-- Elementwise `_values_match` over the zip of two lists (the length test
has already passed). -/
def valuesMatchList (sim : String → String → ℚ) : List Value → List Value → Bool
  | x :: xs, y :: ys => valuesMatch sim x y && valuesMatchList sim xs ys
  | _, _ => true

end

/-- `TruthEngine._source_supports_claim`: normalize the claim; on a direct
key hit decide by `_values_match` alone; otherwise scan for a fuzzily
similar key whose value matches. -/
def sourceSupportsClaim (sim : String → String → ℚ) (claim : String) (value : Value)
    (sd : SourceData) : Bool :=
  let ck := normalizeKey claim
  match dictGet sd.data ck with
  | some sourceValue => valuesMatch sim value sourceValue
  | none => sd.data.any (fun kv => keysSimilar sim ck kv.1 && valuesMatch sim value kv.2)

/-- `TruthEngine._extract_value_from_source`: the value under the direct
key, else under the first fuzzily similar key, else `None`. -/
def extractValueFromSource (sim : String → String → ℚ) (claim : String)
    (sd : SourceData) : Option Value :=
  let ck := normalizeKey claim
  match dictGet sd.data ck with
  | some v => some v
  | none => (sd.data.find? (fun kv => keysSimilar sim ck kv.1)).map (fun kv => kv.2)

/-- `TruthEngine._calculate_confidence`: agreement ratio times mean
reliability of supporting sources, ×1.1 with a primary supporter, −0.02 per
conflict, ×1.05 with three or more supporters, clamped to [0, 1]; zero with
no supporters. -/
def calculateConfidence (supporting : List Source) (totalSources : Nat)
    (conflicts : List (Value × Source)) : ℚ :=
  if supporting.isEmpty then 0
  else
    let base : ℚ := (supporting.length : ℚ) / ((max totalSources 1 : Nat) : ℚ)
    let avgReliability := (supporting.map (fun s => s.reliability_score)).sum / (supporting.length : ℚ)
    let w1 := base * avgReliability
    let w2 := if supporting.any (fun s => s.source_type == SourceType.primary) then w1 * (11/10) else w1
    let w3 := if conflicts.isEmpty then w2 else w2 - (conflicts.length : ℚ) * (1/50)
    let w4 := if 3 ≤ supporting.length then w3 * (21/20) else w3
    max 0 (min 1 w4)

/-- `TruthEngine._assess_conflict_severity`: minor / moderate / critical by
conflict count. -/
def assessConflictSeverity (conflicts : List (Value × Source)) : String :=
  if conflicts.length == 1 then "minor"
  else if conflicts.length == 2 then "moderate"
  else "critical"

/-- `TruthEngine._generate_verification_notes`. -/
def generateVerificationNotes (supporting : List Source)
    (conflicts : List (Value × Source)) : Option String :=
  let n1 : List String := if supporting.isEmpty then ["No sources found supporting this claim."] else []
  let n2 : List String := if supporting.length == 1 then ["Verified by single source only - confidence limited."] else []
  let n3 : List String := if conflicts.isEmpty then []
    else ["Found " ++ toString conflicts.length ++ " conflicting value(s) in other sources."]
  let primaryCount := (supporting.filter (fun s => s.source_type == SourceType.primary)).length
  let n4 : List String := if primaryCount == 0 then []
    else ["Confirmed by " ++ toString primaryCount ++ " primary source(s)."]
  let notes := n1 ++ n2 ++ n3 ++ n4
  if notes.isEmpty then none else some (String.intercalate " " notes)

/-- `TruthEngine.verify_claim`: build a `Source` per dataset, split into
supporters and conflicting alternatives, compute the confidence, build at
most one `Conflict` record, and verify iff there is at least one supporter
and the confidence clears the threshold (conflicts do not disqualify); a
verified fact carries the supporting sources, an unsupported one all
sources. -/
def verifyClaim (sim : String → String → ℚ) (min_confidence : ℚ) (now : Nat)
    (claim : String) (value : Value) (sources_data : List SourceData) : VerifiedFact :=
  let sources := sources_data.map (createSource now)
  let supporting := (sources_data.filter (fun sd => sourceSupportsClaim sim claim value sd)).map (createSource now)
  let conflictingValues := (sources_data.filter (fun sd => !sourceSupportsClaim sim claim value sd)).filterMap
    (fun sd =>
      match extractValueFromSource sim claim sd with
      | some alt =>
        if alt.pyTruthy && !(Value.beq alt value) then some (alt, createSource now sd) else none
      | none => none)
  let confidence := calculateConfidence supporting sources.length conflictingValues
  let conflicts : List Conflict :=
    if conflictingValues.isEmpty then []
    else [{ claim := claim,
            conflicting_values := value :: conflictingValues.map (fun p => p.1),
            sources := conflictingValues.map (fun p => p.2),
            severity := assessConflictSeverity conflictingValues,
            resolution := none }]
  let verified := decide (0 < supporting.length) && decide (min_confidence ≤ confidence)
  { claim := claim, value := value, verified := verified, confidence := confidence,
    sources := if supporting.isEmpty then sources else supporting,
    conflicts := conflicts,
    notes := generateVerificationNotes supporting conflictingValues,
    last_verified := now }

/-- The constructor default of `TruthEngine.min_confidence`. -/
def defaultMinConfidence : ℚ := 1/5

/-! ## `src/utils/progress_tracker.py` -/

/-- `ProgressStatus` enum. -/
inductive ProgressStatus where
  | pending : ProgressStatus
  | in_progress : ProgressStatus
  | completed : ProgressStatus
  | failed : ProgressStatus
deriving DecidableEq

/-- `ProgressLevel` enum. -/
inductive ProgressLevel where
  | phase : ProgressLevel
  | task : ProgressLevel
  | skill : ProgressLevel
  | api : ProgressLevel
  | llm : ProgressLevel
  | action : ProgressLevel
deriving DecidableEq

/-- `ProgressEvent` dataclass; the timestamp is the tick at emission. -/
structure ProgressEvent where
  task_id : String
  task_name : String
  action : String
  status : ProgressStatus
  level : ProgressLevel
  timestamp : Nat
  details : Option Value

/-- One entry of a tracked task's `actions` log. -/
structure ActionEntry where
  action : String
  level : ProgressLevel
  timestamp : Nat
deriving DecidableEq

/-- Per-task record in `ProgressTracker.tasks`. -/
structure TrackerTask where
  name : String
  status : ProgressStatus
  actions : List ActionEntry
  start_time : Option Nat
  end_time : Option Nat
deriving DecidableEq

/-- `ProgressTracker` state (the UI callback is external and dropped; it
only receives snapshots). Durations are in ticks. -/
structure ProgressTracker where
  total_tasks : Nat
  events : List ProgressEvent
  tasks : List (String × TrackerTask)
  start_time : Nat
  task_start_times : List (String × Nat)
  task_durations : List Int
  current_phase : String
  completed_tasks : Nat
  failed_tasks : Nat

/-- `ProgressTracker.__init__`. -/
def initTracker (total_tasks : Nat) (now : Nat) : ProgressTracker :=
  { total_tasks := total_tasks, events := [], tasks := [], start_time := now,
    task_start_times := [], task_durations := [], current_phase := "",
    completed_tasks := 0, failed_tasks := 0 }

/-- Update the record under a key of an insertion-ordered dict (generic
version of `dictSet` for the tracker's task map). -/
def assocSet {β : Type} (d : List (String × β)) (k : String) (v : β) : List (String × β) :=
  match d with
  | [] => [(k, v)]
  | kv :: rest => if kv.1 == k then (k, v) :: rest else kv :: assocSet rest k v

/-- Lookup in the tracker's task map. -/
def assocGet {β : Type} (d : List (String × β)) (k : String) : Option β :=
  (d.find? (fun kv => kv.1 == k)).map (fun kv => kv.2)

/-- `ProgressTracker.emit`: append the event; create the task record on
first sight; set its status and append the action; on the first
`in_progress` stamp the start time; on `completed` stamp the end time and
record the duration when a start time exists, and count it; on `failed`
count it. -/
def ProgressTracker.emit (p : ProgressTracker) (task_id task_name action : String)
    (status : ProgressStatus) (level : ProgressLevel) (details : Option Value)
    (now : Nat) : ProgressTracker :=
  let event : ProgressEvent :=
    { task_id := task_id, task_name := task_name, action := action,
      status := status, level := level, timestamp := now, details := details }
  let base : TrackerTask :=
    (assocGet p.tasks task_id).getD
      { name := task_name, status := status, actions := [], start_time := none, end_time := none }
  let t1 := { base with
    status := status,
    actions := base.actions ++ [{ action := action, level := level, timestamp := now }] }
  let p1 := { p with events := p.events ++ [event], tasks := assocSet p.tasks task_id t1 }
  if status == ProgressStatus.in_progress && t1.start_time == none then
    { p1 with
      tasks := assocSet p1.tasks task_id { t1 with start_time := some now },
      task_start_times := assocSet p1.task_start_times task_id now }
  else if status == ProgressStatus.completed then
    let p2 :=
      match t1.start_time with
      | some st =>
        { p1 with
          tasks := assocSet p1.tasks task_id { t1 with end_time := some now },
          task_durations := p1.task_durations ++ [(now : Int) - (st : Int)] }
      | none => p1
    { p2 with completed_tasks := p2.completed_tasks + 1 }
  else if status == ProgressStatus.failed then
    { p1 with failed_tasks := p1.failed_tasks + 1 }
  else p1

/-- `ProgressTracker._format_duration` (durations are whole ticks, so the
`int(...)` truncations are exact). -/
def formatDuration (seconds : Int) : String :=
  if seconds < 60 then toString seconds ++ " seconds"
  else if seconds < 3600 then
    let minutes := seconds / 60
    let secs := seconds % 60
    toString minutes ++ " minute" ++ (if minutes != 1 then "s" else "") ++ " " ++ toString secs ++ " seconds"
  else
    let hours := seconds / 3600
    let minutes := (seconds % 3600) / 60
    toString hours ++ " hour" ++ (if hours != 1 then "s" else "") ++ " " ++ toString minutes ++ " minutes"

/-- `ProgressTracker.get_estimated_time_remaining`: mean completed duration
times remaining count; `Calculating...` before any completion;
`Almost done...` on a negative estimate. -/
def ProgressTracker.getEstimatedTimeRemaining (p : ProgressTracker) : String :=
  if p.task_durations.isEmpty then "Calculating..."
  else
    let avg : ℚ := ((p.task_durations.map (fun d => (d : ℚ))).sum) / (p.task_durations.length : ℚ)
    let remaining : Int := (p.total_tasks : Int) - (p.completed_tasks : Int) - (p.failed_tasks : Int)
    let estimated : ℚ := avg * (remaining : ℚ)
    if estimated < 0 then "Almost done..."
    else formatDuration ⌊estimated⌋

/-- The `current_action` entry of a snapshot. -/
structure CurrentAction where
  task_id : String
  task_name : String
  action : String
  level : ProgressLevel
deriving DecidableEq

/-- One element of a snapshot's `tasks` list (id, name, status, last five
actions). -/
structure SnapshotTask where
  id : String
  name : String
  status : ProgressStatus
  actions : List ActionEntry
deriving DecidableEq

/-- The snapshot dict returned by `ProgressTracker.get_status`. -/
structure ProgressSnapshot where
  phase : String
  total_tasks : Nat
  completed : Nat
  failed : Nat
  in_progress : Bool
  progress_percent : ℚ
  current_action : Option CurrentAction
  tasks : List SnapshotTask
  eta : String
  elapsed : String

/-- Last `n` elements of a list (Python's `l[-n:]`). -/
def lastN {α : Type} (n : Nat) (l : List α) : List α :=
  (l.reverse.take n).reverse

/-- `ProgressTracker.get_status`: percent is
`(completed + failed) / total_tasks * 100` with no clamp (0 when there are
no tasks); `current_action` is the latest event when it is `in_progress`;
each task row carries its last five actions. -/
def ProgressTracker.get_status (p : ProgressTracker) (now : Nat) : ProgressSnapshot :=
  let totalFinished := p.completed_tasks + p.failed_tasks
  let percent : ℚ :=
    if 0 < p.total_tasks then (totalFinished : ℚ) / (p.total_tasks : ℚ) * 100 else 0
  let currentAction :=
    match p.events.getLast? with
    | some latest =>
      if latest.status == ProgressStatus.in_progress then
        some { task_id := latest.task_id, task_name := latest.task_name,
               action := latest.action, level := latest.level }
      else none
    | none => none
  { phase := p.current_phase, total_tasks := p.total_tasks,
    completed := p.completed_tasks, failed := p.failed_tasks,
    in_progress := decide (totalFinished < p.total_tasks),
    progress_percent := percent, current_action := currentAction,
    tasks := p.tasks.map (fun kv =>
      { id := kv.1, name := kv.2.name, status := kv.2.status, actions := lastN 5 kv.2.actions }),
    eta := p.getEstimatedTimeRemaining,
    elapsed := formatDuration ((now : Int) - (p.start_time : Int)) }

/-! ## `src/core/executor.py` (loop detection) -/

/-- All elements equal (`len(set(l)) == 1` for a non-empty `l`). -/
def allSame : List String → Bool
  | [] => true
  | x :: xs => xs.all (fun y => y == x)

/-- `Executor.detect_loop`: append the signature to `recent_actions`, trim
the window to its last five entries, and report a loop iff the window holds
at least four entries and its last four are identical. Returns the new
window and the verdict. -/
def detectLoop (recent_actions : List String) (action_signature : String) :
    List String × Bool :=
  let r1 := recent_actions ++ [action_signature]
  let r2 := if 5 < r1.length then lastN 5 r1 else r1
  (r2, decide (4 ≤ r2.length) && allSame (lastN 4 r2))

/-- `Executor.reset_loop_detection` gives `recent_actions = []`; running one
`detect_loop` call per signature from there, keeping the window and the last
verdict. -/
def runDetect (sigs : List String) : List String × Bool :=
  sigs.foldl (fun acc s => detectLoop acc.1 s) ([], false)

/-! ## Claim C5: `add_task` and duplicate ids -/

/-- Appending never rejects: the task list after `add_task` is always the old
list plus the new task, whatever ids already exist. -/
theorem add_task_appends_unconditionally (s : StateManager) (t : Task) :
    (s.add_task t).tasks = s.tasks ++ [t] := rfl

/-- C5 counterexample: adding a second task with the already-present id
`t1` does not fail and does not leave the task list unchanged — both copies
end up in the list, refuting the claimed duplicate-id rejection. -/
theorem add_task_duplicate_id_accepted :
    ((initStateManager.add_task (Task.mk0 "t1" "first" "phase1" "sk" [])).add_task
        (Task.mk0 "t1" "second" "phase1" "sk" [])).tasks.map Task.id = ["t1", "t1"] ∧
    ((initStateManager.add_task (Task.mk0 "t1" "first" "phase1" "sk" [])).add_task
        (Task.mk0 "t1" "second" "phase1" "sk" [])).tasks.length = 2 := ⟨rfl, rfl⟩

/-! ## Claim C3: the summary's task-count identity -/

/-- Every task falls in exactly one of the buckets completed / failed /
pending / other, so the four filter counts partition the length. -/
theorem statusPartition (l : List Task) :
    l.length = (l.filter (fun t => t.status == "completed")).length +
      (l.filter (fun t => t.status == "failed")).length +
      (l.filter (fun t => t.status == "pending")).length +
      (l.filter (fun t =>
        !(t.status == "completed" || t.status == "failed" || t.status == "pending"))).length := by
  induction l with
  | nil => rfl
  | cons t l ih =>
    by_cases hc : t.status = "completed"
    · simp [List.filter_cons, hc, ih]
      omega
    · by_cases hf : t.status = "failed"
      · simp [List.filter_cons, hc, hf, ih]
        omega
      · by_cases hp : t.status = "pending"
        · simp [List.filter_cons, hc, hf, hp, ih]
          omega
        · simp [List.filter_cons, hc, hf, hp, ih]
          omega

/-- C3 amended: `get_summary` counts only the three statuses `completed`,
`failed`, `pending`, while `total` counts every task, so the claimed
identity holds up to the number of tasks in any other status (such as
`in_progress`): `total = completed + failed + pending + other`. -/
theorem summary_total_eq_counts_plus_other (s : StateManager) :
    (s.get_summary).total = (s.get_summary).completed + (s.get_summary).failed +
      (s.get_summary).pending +
      (s.tasks.filter (fun t =>
        !(t.status == "completed" || t.status == "failed" || t.status == "pending"))).length :=
  statusPartition s.tasks

/-- C3 counterexample: a state holding one `in_progress` task has
`summary.total = 1` but `completed + failed + pending = 0`, refuting the
claimed identity over arbitrary status multisets. -/
theorem summary_total_ne_counts_with_in_progress :
    ¬ ((initStateManager.add_task
          { Task.mk0 "t1" "d" "phase1" "sk" [] with status := "in_progress" }).get_summary).total =
      ((initStateManager.add_task
          { Task.mk0 "t1" "d" "phase1" "sk" [] with status := "in_progress" }).get_summary).completed +
      ((initStateManager.add_task
          { Task.mk0 "t1" "d" "phase1" "sk" [] with status := "in_progress" }).get_summary).failed +
      ((initStateManager.add_task
          { Task.mk0 "t1" "d" "phase1" "sk" [] with status := "in_progress" }).get_summary).pending := by
  decide

/-! ## Claim C10: `update_task_status` on an unknown id -/

/-- Updating a task id that matches no task in the registry is a silent
no-op: no error is produced (the function is total) and the state is
returned unchanged, for every status, result and error argument. -/
theorem update_unknown_id_is_noop (s : StateManager) (task_id status : String)
    (result : Option Value) (error : Option String) (now : Nat)
    (h : s.get_task task_id = none) :
    s.update_task_status task_id status result error now = s := by
  unfold StateManager.update_task_status
  rw [h]

/-- Witness for C10 at the empty initial state and an arbitrary concrete
argument vector. -/
theorem update_unknown_id_is_noop_witness :
    initStateManager.update_task_status "missing" "completed" (some (Value.str "x"))
      (some "boom") 7 = initStateManager :=
  update_unknown_id_is_noop initStateManager "missing" "completed" (some (Value.str "x"))
    (some "boom") 7 rfl

/-! ## Claim C4: `update_task_status` transition behaviour -/

/-- The status update never touches the task id. -/
theorem applyStatusUpdate_id (status : String) (result : Option Value) (error : Option String)
    (now : Nat) (t : Task) : (applyStatusUpdate status result error now t).id = t.id := by
  unfold applyStatusUpdate
  cases hr : optTruthy result <;> cases he : optStrTruthy error <;> simp [hr, he] <;>
    split <;> (try rfl) <;> split <;> rfl

/-- Field behaviour of one status update: the requested status is set
unconditionally, `started_at` is stamped exactly on a first `in_progress`,
and `completed_at` is stamped on every `completed`/`failed` update. -/
theorem applyStatusUpdate_fields (st : String) (r : Option Value) (e : Option String)
    (now : Nat) (t : Task) :
    (applyStatusUpdate st r e now t).status = st ∧
    (applyStatusUpdate st r e now t).started_at =
      (if st = "in_progress" ∧ t.started_at = none then some now else t.started_at) ∧
    (applyStatusUpdate st r e now t).completed_at =
      (if st = "completed" ∨ st = "failed" then some now else t.completed_at) := by
  unfold applyStatusUpdate
  cases hr : optTruthy r <;> cases he : optStrTruthy e <;>
    by_cases hip : st = "in_progress" <;>
    by_cases hc : st = "completed" <;>
    by_cases hf : st = "failed" <;>
    simp_all <;>
    cases hsa : t.started_at <;> simp [hsa]

/-- Finding by id after replacing the first match finds the replaced task,
whenever the replacement preserves the id. -/
theorem find_updateFirst (l : List Task) (task_id : String) (f : Task → Task) (t : Task)
    (hf : ∀ u, (f u).id = u.id) (h : l.find? (fun u => u.id == task_id) = some t) :
    (updateFirst l task_id f).find? (fun u => u.id == task_id) = some (f t) := by
  induction l with
  | nil => simp at h
  | cons u l ih =>
    cases hu : (u.id == task_id) with
    | false =>
      simp only [List.find?, hu] at h
      unfold updateFirst
      rw [if_neg (by simp [hu])]
      simp only [List.find?, hu]
      exact ih h
    | true =>
      simp only [List.find?, hu] at h
      have hut : u = t := by injection h
      subst hut
      unfold updateFirst
      rw [if_pos hu]
      simp only [List.find?, hf u, hu]

/-- C4 amended: `update_task_status` performs no transition validation and
produces no `InvalidState` failure — it unconditionally sets the requested
status on the first task with the given id (so a terminal task can move
back to a non-terminal status); the stamping part of the claim holds:
`started_at` is set only on the first transition to `in_progress`, and
`completed_at` is set on every `completed`/`failed` update. -/
theorem update_task_status_unconditional (s : StateManager) (task_id st : String)
    (r : Option Value) (e : Option String) (now : Nat) (t : Task)
    (h : s.get_task task_id = some t) :
    ∃ t2, (s.update_task_status task_id st r e now).get_task task_id = some t2 ∧
      t2.status = st ∧
      t2.started_at = (if st = "in_progress" ∧ t.started_at = none then some now else t.started_at) ∧
      t2.completed_at = (if st = "completed" ∨ st = "failed" then some now else t.completed_at) := by
  refine ⟨applyStatusUpdate st r e now t, ?_, (applyStatusUpdate_fields st r e now t).1,
    (applyStatusUpdate_fields st r e now t).2.1, (applyStatusUpdate_fields st r e now t).2.2⟩
  unfold StateManager.update_task_status
  rw [h]
  exact find_updateFirst s.tasks task_id _ t (applyStatusUpdate_id st r e now) h

/-- Witness for the amended C4 at a concrete one-task state. -/
theorem update_task_status_unconditional_witness :
    ∃ t2, ((initStateManager.add_task (Task.mk0 "t1" "d" "phase1" "sk" [])).update_task_status
        "t1" "completed" none none 4).get_task "t1" = some t2 ∧
      t2.status = "completed" ∧
      t2.started_at = (if "completed" = "in_progress" ∧
        (Task.mk0 "t1" "d" "phase1" "sk" []).started_at = none then some 4
        else (Task.mk0 "t1" "d" "phase1" "sk" []).started_at) ∧
      t2.completed_at = (if "completed" = "completed" ∨ "completed" = "failed" then some 4
        else (Task.mk0 "t1" "d" "phase1" "sk" []).completed_at) :=
  update_task_status_unconditional (initStateManager.add_task (Task.mk0 "t1" "d" "phase1" "sk" []))
    "t1" "completed" none none 4 (Task.mk0 "t1" "d" "phase1" "sk" []) rfl

/-- C4 counterexample: a task at the terminal status `completed` is moved
back to the non-terminal status `pending` by `update_task_status` with no
failure of any kind, refuting the claimed transition enforcement. -/
theorem terminal_to_pending_allowed :
    ((((initStateManager.add_task (Task.mk0 "t1" "d" "phase1" "sk" [])).update_task_status
        "t1" "completed" none none 1).update_task_status
        "t1" "pending" none none 2).get_task "t1").map Task.status = some "pending" ∧
    (((initStateManager.add_task (Task.mk0 "t1" "d" "phase1" "sk" [])).update_task_status
        "t1" "completed" none none 1).get_task "t1").map Task.status = some "completed" :=
  ⟨rfl, rfl⟩

/-! ## Claim C2: save → load → save round trip -/

/-- C2 amended: when no timestamp is set — neither the manager-level
`started_at`/`phase1_completed_at`/`phase2_completed_at` nor any task's
`started_at`/`completed_at` — saving, loading into a fresh manager and
saving again reproduces the first file exactly (up to map-key ordering,
which the fixed field order of `SavedState` quotients out); `load_state`
reconstructs the tasks and the context buckets but restores every timestamp
as `None`. -/
theorem save_load_save_roundtrip (s : StateManager)
    (h0 : s.started_at = none) (h1 : s.phase1_completed_at = none)
    (h2 : s.phase2_completed_at = none)
    (ht : ∀ t ∈ s.tasks, t.started_at = none ∧ t.completed_at = none) :
    (initStateManager.load_state s.save_state).save_state = s.save_state := by
  unfold StateManager.load_state StateManager.save_state initStateManager
  simp only [SavedState.mk.injEq, h0, h1, h2, List.map_map, true_and, and_true, and_self]
  apply List.map_congr_left
  intro t htmem
  obtain ⟨hs, hc⟩ := ht t htmem
  simp [Function.comp, Task.to_dict, hs, hc]

/-- Witness for the amended C2 at a concrete timestamp-free state with one
pending task. -/
theorem save_load_save_roundtrip_witness :
    (initStateManager.load_state
        ((initStateManager.add_task (Task.mk0 "t1" "d" "phase1" "sk" [])).save_state)).save_state =
      (initStateManager.add_task (Task.mk0 "t1" "d" "phase1" "sk" [])).save_state :=
  save_load_save_roundtrip (initStateManager.add_task (Task.mk0 "t1" "d" "phase1" "sk" []))
    rfl rfl rfl (by
      intro t htm
      rw [show (initStateManager.add_task (Task.mk0 "t1" "d" "phase1" "sk" [])).tasks =
        [Task.mk0 "t1" "d" "phase1" "sk" []] from rfl] at htm
      obtain rfl := List.mem_singleton.mp htm
      exact ⟨rfl, rfl⟩)

/-- A reachable state with a running task: one task marked `in_progress` at
tick 5 (exactly what the orchestrator produces before executing a task). -/
def c2startedState : StateManager :=
  (initStateManager.add_task (Task.mk0 "t1" "d" "phase1" "sk" [])).update_task_status
    "t1" "in_progress" none none 5

/-- C2 counterexample: for a state whose task carries `started_at = 5`, the
second save differs from the first — `load_state` rebuilds tasks without
their `started_at`/`completed_at` fields, so the round trip is not
byte-identical and the task timestamps are not reconstructed. -/
theorem save_load_save_not_roundtrip :
    (initStateManager.load_state c2startedState.save_state).save_state ≠
      c2startedState.save_state := by
  intro h
  have h2 := congrArg (fun d => d.tasks.map (fun td => td.started_at)) h
  exact absurd (h2 : ([none] : List (Option Nat)) = [some 5]) (by decide)

/-! ## Claim C1: FrameworksOnly precondition -/

/-- Identity data of a task (id, skill, phase), which no status update
touches. -/
def taskTriple (t : Task) : String × String × String := (t.id, t.skill, t.phase)

/-- The status update keeps the identity data. -/
theorem applyStatusUpdate_triple (st : String) (r : Option Value) (e : Option String)
    (now : Nat) (t : Task) :
    taskTriple (applyStatusUpdate st r e now t) = taskTriple t := by
  unfold taskTriple applyStatusUpdate
  cases hr : optTruthy r <;> cases he : optStrTruthy e <;> simp [hr, he] <;>
    split <;> (try split) <;> simp

/-- Mapping a replacement that is invisible to `f` leaves the mapped list
unchanged. -/
theorem updateFirst_map {α : Type} (f : Task → α) (g : Task → Task)
    (h : ∀ t, f (g t) = f t) (task_id : String) :
    ∀ l : List Task, (updateFirst l task_id g).map f = l.map f
  | [] => rfl
  | u :: l => by
    unfold updateFirst
    split
    · simp [h u]
    · simp [updateFirst_map f g h task_id l]

/-- `update_task_status` keeps every task's identity data. -/
theorem update_task_status_triple (s : StateManager) (task_id st : String)
    (r : Option Value) (e : Option String) (now : Nat) :
    ((s.update_task_status task_id st r e now).tasks).map taskTriple =
      s.tasks.map taskTriple := by
  unfold StateManager.update_task_status
  cases s.get_task task_id
  · rfl
  · exact updateFirst_map taskTriple _ (applyStatusUpdate_triple st r e now) task_id s.tasks

/-- Routing a result into a Phase-2 bucket does not touch the task list. -/
theorem storePhase2Result_tasks (s : StateManager) (t : Task) (r : Value) :
    (storePhase2Result s t r).tasks = s.tasks := rfl

/-- One loop iteration of `run_phase2` keeps every task's identity data. -/
theorem phase2TaskStep_triple (er : Task → Value) (vd : Task → Value → Bool × String)
    (ms now : Nat) (acc : Phase2Loop) (task : Task) :
    ((phase2TaskStep er vd ms now acc task).state.tasks).map taskTriple =
      (acc.state.tasks).map taskTriple := by
  unfold phase2TaskStep
  split
  · rfl
  · split
    · rfl
    · split
      · rfl
      · dsimp only
        split
        · rw [update_task_status_triple, storePhase2Result_tasks, update_task_status_triple]
        · rw [update_task_status_triple, update_task_status_triple]

/-- The whole `run_phase2` loop keeps every task's identity data. -/
theorem foldl_phase2_triple (er : Task → Value) (vd : Task → Value → Bool × String)
    (ms now : Nat) :
    ∀ (tasks : List Task) (acc : Phase2Loop),
      ((tasks.foldl (phase2TaskStep er vd ms now) acc).state.tasks).map taskTriple =
        (acc.state.tasks).map taskTriple
  | [], _ => rfl
  | task :: rest, acc => by
    rw [List.foldl_cons, foldl_phase2_triple er vd ms now rest _,
      phase2TaskStep_triple er vd ms now acc task]

/-- C1 evaluated at the failing input: a fresh orchestrator (its
`StateManager` fresh from `__init__`, so no Phase-1 results were ever loaded)
run in `frameworks` mode over the deterministic PESTEL plan. Because
`__init__` fills `phase1_context` with six fixed keys, the dict is truthy
and the `not self.state.phase1_context` guard never fires: whatever the
executor and validator return, the run produces the success envelope
(`error = None`, `analysis_type = "frameworks"`) and the Phase-2 PESTEL
task is added to the state — not the Precondition error envelope with no
tasks that the claim (and the code's own intent comment) describe. -/
theorem frameworksOnly_precondition_never_fires (maxSteps currentStep now : Nat)
    (execRes : Task → Value) (valid : Task → Value → Bool × String) :
    (runFrameworksOnly initStateManager maxSteps currentStep
        (defaultPhase2Tasks ["PESTEL Analysis"]) execRes valid now).2.error = none ∧
    (runFrameworksOnly initStateManager maxSteps currentStep
        (defaultPhase2Tasks ["PESTEL Analysis"]) execRes valid now).2.analysis_type =
      some "frameworks" ∧
    ((runFrameworksOnly initStateManager maxSteps currentStep
        (defaultPhase2Tasks ["PESTEL Analysis"]) execRes valid now).1.tasks).map taskTriple =
      [("phase2_task_1", "pestel-analyzer", "phase2")] ∧
    initStateManager.phase1_context.isEmpty = false := by
  refine ⟨rfl, rfl, ?_, rfl⟩
  have hr : (runFrameworksOnly initStateManager maxSteps currentStep
      (defaultPhase2Tasks ["PESTEL Analysis"]) execRes valid now).1.tasks =
      (((defaultPhase2Tasks ["PESTEL Analysis"]).foldl
          (phase2TaskStep execRes valid maxSteps now)
          { state := (defaultPhase2Tasks ["PESTEL Analysis"]).foldl StateManager.add_task
              { initStateManager with current_phase := "phase2" },
            current_step := currentStep, completed_ids := [], stopped := false }).state).tasks := rfl
  rw [hr, foldl_phase2_triple]
  rfl

/-! ## Claim C6: the verification predicate -/

/-- The verification predicate of `verify_claim`, spelt out: verified iff
there is a supporting source and the confidence clears the threshold. -/
theorem verifyClaim_verified_iff (sim : String → String → ℚ) (minc : ℚ) (now : Nat)
    (claim : String) (value : Value) (sources_data : List SourceData) :
    (verifyClaim sim minc now claim value sources_data).verified = true ↔
      (1 ≤ (sources_data.filter (fun sd => sourceSupportsClaim sim claim value sd)).length ∧
        minc ≤ (verifyClaim sim minc now claim value sources_data).confidence) := by
  unfold verifyClaim
  dsimp only
  simp [Nat.succ_le_iff]

/-- For every similarity metric, threshold, claim, value and source list:
`verify_claim` returns `verified = true` exactly when at least one source
supports the claim and the computed confidence reaches the threshold
(conflicts play no role in the predicate), and a verified fact always
carries a non-empty source list. -/
theorem verify_claim_predicate (sim : String → String → ℚ) (minc : ℚ) (now : Nat)
    (claim : String) (value : Value) (sources_data : List SourceData) :
    ((verifyClaim sim minc now claim value sources_data).verified = true ↔
      (1 ≤ (sources_data.filter (fun sd => sourceSupportsClaim sim claim value sd)).length ∧
        minc ≤ (verifyClaim sim minc now claim value sources_data).confidence)) ∧
    ((verifyClaim sim minc now claim value sources_data).verified = true →
      (verifyClaim sim minc now claim value sources_data).sources ≠ []) := by
  refine ⟨verifyClaim_verified_iff sim minc now claim value sources_data, ?_⟩
  intro hv
  obtain ⟨h1, -⟩ := (verifyClaim_verified_iff sim minc now claim value sources_data).mp hv
  have hne : (sources_data.filter (fun sd => sourceSupportsClaim sim claim value sd)).map
      (createSource now) ≠ [] :=
    List.ne_nil_of_length_pos (by simpa using h1)
  show (if ((sources_data.filter (fun sd => sourceSupportsClaim sim claim value sd)).map
      (createSource now)).isEmpty = true then sources_data.map (createSource now)
    else (sources_data.filter (fun sd => sourceSupportsClaim sim claim value sd)).map
      (createSource now)) ≠ []
  rw [if_neg (by simpa [List.isEmpty_iff] using hne)]
  exact hne

/-! ## Claim C7: three agreeing secondary sources -/

/-- One of the three agreeing secondary datasets of the scenario: no
explicit reliability, so the secondary default 0.8 applies, and the data map
holds the claimed revenue value. -/
def c7sourceData (name : String) : SourceData :=
  { url := some "https://example.test/a", source_type := some "secondary",
    source_name := some name, date_published := none, reliability_score := none,
    data := [("revenue", Value.str "$100M")] }

/-- With exactly three supporting sources, all secondary at reliability 0.8
and no conflicting values, the computed confidence is
(3/3)·0.8·1.05 = 0.840 = 21/25, the fact is verified at the default
threshold 0.2, and its confidence level is High. -/
theorem three_secondary_sources_confidence :
    (verifyClaim (fun _ _ => 0) defaultMinConfidence 0 "revenue" (Value.str "$100M")
        [c7sourceData "A", c7sourceData "B", c7sourceData "C"]).confidence = 21/25 ∧
    (verifyClaim (fun _ _ => 0) defaultMinConfidence 0 "revenue" (Value.str "$100M")
        [c7sourceData "A", c7sourceData "B", c7sourceData "C"]).verified = true ∧
    (verifyClaim (fun _ _ => 0) defaultMinConfidence 0 "revenue" (Value.str "$100M")
        [c7sourceData "A", c7sourceData "B", c7sourceData "C"]).conflicts = [] ∧
    confidenceLevel (verifyClaim (fun _ _ => 0) defaultMinConfidence 0 "revenue"
        (Value.str "$100M")
        [c7sourceData "A", c7sourceData "B", c7sourceData "C"]).confidence =
      ConfidenceLevel.high := by
  have hconf : (verifyClaim (fun _ _ => 0) defaultMinConfidence 0 "revenue"
      (Value.str "$100M")
      [c7sourceData "A", c7sourceData "B", c7sourceData "C"]).confidence =
      max 0 (min 1 (((3 : Nat) : ℚ) / ((3 : Nat) : ℚ) *
        ((4/5 + (4/5 + (4/5 + 0))) / ((3 : Nat) : ℚ)) * (21/20))) := by
    with_unfolding_all rfl
  have hval : max (0:ℚ) (min 1 (((3 : Nat) : ℚ) / ((3 : Nat) : ℚ) *
      ((4/5 + (4/5 + (4/5 + 0))) / ((3 : Nat) : ℚ)) * (21/20))) = 21/25 := by
    rw [min_eq_right (by norm_num), max_eq_right (by norm_num)]
    norm_num
  have hc : (verifyClaim (fun _ _ => 0) defaultMinConfidence 0 "revenue"
      (Value.str "$100M")
      [c7sourceData "A", c7sourceData "B", c7sourceData "C"]).confidence = 21/25 :=
    hconf.trans hval
  refine ⟨hc, ?_, rfl, ?_⟩
  · rw [verifyClaim_verified_iff]
    refine ⟨by decide, ?_⟩
    rw [hc]
    unfold defaultMinConfidence
    norm_num
  · rw [hc]
    unfold confidenceLevel
    rw [if_neg (by norm_num), if_pos (by norm_num)]

/-! ## Claim C8: progress percentage -/

/-- One recorded `emit` call. -/
structure EmitCall where
  task_id : String
  task_name : String
  action : String
  status : ProgressStatus
  level : ProgressLevel
  details : Option Value
  timestamp : Nat

/-- Replay one recorded call against the tracker. -/
def applyEmit (p : ProgressTracker) (c : EmitCall) : ProgressTracker :=
  p.emit c.task_id c.task_name c.action c.status c.level c.details c.timestamp

/-- Whether an emitted event carries a terminal status. -/
def isTerminalEvent (c : EmitCall) : Bool :=
  c.status == ProgressStatus.completed || c.status == ProgressStatus.failed

/-- `emit` bumps `completed_tasks + failed_tasks` by one exactly on a
terminal event and never changes `total_tasks`. -/
theorem emit_counts (p : ProgressTracker) (c : EmitCall) :
    ((applyEmit p c).completed_tasks + (applyEmit p c).failed_tasks =
      p.completed_tasks + p.failed_tasks + (if isTerminalEvent c then 1 else 0)) ∧
    (applyEmit p c).total_tasks = p.total_tasks := by
  unfold applyEmit ProgressTracker.emit isTerminalEvent
  obtain ⟨tid, tname, act, st, lv, dt, ts⟩ := c
  cases st <;> dsimp only <;> (repeat' split) <;> simp_all <;> try omega

/-- Replaying a call list adds one finished task per terminal event. -/
theorem foldl_emit_counts (emits : List EmitCall) : ∀ p : ProgressTracker,
    ((emits.foldl applyEmit p).completed_tasks + (emits.foldl applyEmit p).failed_tasks =
      p.completed_tasks + p.failed_tasks + emits.countP isTerminalEvent) ∧
    (emits.foldl applyEmit p).total_tasks = p.total_tasks := by
  induction emits with
  | nil => intro p; simp
  | cons c rest ih =>
    intro p
    rw [List.foldl_cons, List.countP_cons]
    obtain ⟨ih1, ih2⟩ := ih (applyEmit p c)
    obtain ⟨h1, h2⟩ := emit_counts p c
    refine ⟨?_, ih2.trans h2⟩
    rw [ih1, h1]
    cases hterm : isTerminalEvent c <;> simp [hterm]
    all_goals omega

/-- C8 amended: `get_status` computes
`(completed + failed) / total_tasks * 100` with no clamp, so the claimed
bound holds exactly on emit sequences whose terminal-event count stays
within `total_tasks` (at most one terminal event per task): under that
hypothesis the percentage never exceeds 100. -/
theorem progress_percent_le_100 (total now0 now : Nat) (emits : List EmitCall)
    (h : emits.countP isTerminalEvent ≤ total) :
    ((emits.foldl applyEmit (initTracker total now0)).get_status now).progress_percent ≤ 100 := by
  obtain ⟨hcf, htot⟩ := foldl_emit_counts emits (initTracker total now0)
  unfold ProgressTracker.get_status
  dsimp only
  split
  · next hpos =>
    rw [htot] at hpos
    have hle : ((emits.foldl applyEmit (initTracker total now0)).completed_tasks +
        (emits.foldl applyEmit (initTracker total now0)).failed_tasks : ℚ) ≤
        ((emits.foldl applyEmit (initTracker total now0)).total_tasks : ℚ) := by
      rw [htot]
      exact_mod_cast hcf.trans_le (by simpa [initTracker] using h)
    have hdiv : (((emits.foldl applyEmit (initTracker total now0)).completed_tasks +
        (emits.foldl applyEmit (initTracker total now0)).failed_tasks : Nat) : ℚ) /
        ((emits.foldl applyEmit (initTracker total now0)).total_tasks : ℚ) ≤ 1 := by
      apply div_le_one_of_le₀
      · exact_mod_cast hle
      · positivity
    calc (((emits.foldl applyEmit (initTracker total now0)).completed_tasks +
          (emits.foldl applyEmit (initTracker total now0)).failed_tasks : Nat) : ℚ) /
          ((emits.foldl applyEmit (initTracker total now0)).total_tasks : ℚ) * 100
        ≤ 1 * 100 := by
          exact mul_le_mul_of_nonneg_right hdiv (by norm_num)
      _ = 100 := by norm_num
  · norm_num

/-- Witness for the amended C8: two tasks, a single terminal event. -/
theorem progress_percent_le_100_witness :
    ((([{ task_id := "t1", task_name := "n", action := "a",
          status := ProgressStatus.completed, level := ProgressLevel.task,
          details := none, timestamp := 1 }] : List EmitCall).foldl applyEmit
        (initTracker 2 0)).get_status 5).progress_percent ≤ 100 :=
  progress_percent_le_100 2 0 5
    [{ task_id := "t1", task_name := "n", action := "a",
       status := ProgressStatus.completed, level := ProgressLevel.task,
       details := none, timestamp := 1 }] (by decide)

/-- C8 counterexample: with `total_tasks = 1`, two `Completed` events for
the same task drive the unclamped percentage to 200 — `get_status` never
clamps, refuting the claimed `≤ 100` bound over arbitrary emit sequences. -/
theorem progress_percent_exceeds_100 :
    ((((initTracker 1 0).emit "t1" "n" "a" ProgressStatus.completed ProgressLevel.task
        none 1).emit "t1" "n" "b" ProgressStatus.completed ProgressLevel.task
        none 2).get_status 3).progress_percent = 200 ∧
    ¬ ((((initTracker 1 0).emit "t1" "n" "a" ProgressStatus.completed ProgressLevel.task
        none 1).emit "t1" "n" "b" ProgressStatus.completed ProgressLevel.task
        none 2).get_status 3).progress_percent ≤ 100 := by
  have hp : ((((initTracker 1 0).emit "t1" "n" "a" ProgressStatus.completed ProgressLevel.task
      none 1).emit "t1" "n" "b" ProgressStatus.completed ProgressLevel.task
      none 2).get_status 3).progress_percent = ((2 : Nat) : ℚ) / ((1 : Nat) : ℚ) * 100 := by
    with_unfolding_all rfl
  rw [hp]
  norm_num

/-! ## Claim C9: loop detection -/

/-- Appending one element shifts the last-`n+1` window by one. -/
theorem lastN_append_one {α : Type} (n : Nat) (l : List α) (a : α) :
    lastN (n + 1) (l ++ [a]) = lastN n l ++ [a] := by
  simp [lastN, List.reverse_append]

/-- Taking a smaller suffix of a suffix is taking it directly. -/
theorem lastN_lastN {α : Type} (m n : Nat) (h : m ≤ n) (l : List α) :
    lastN m (lastN n l) = lastN m l := by
  simp [lastN, List.take_take, Nat.min_eq_left h]

/-- A short list is its own suffix. -/
theorem lastN_of_length_le {α : Type} (n : Nat) (l : List α) (h : l.length ≤ n) :
    lastN n l = l := by
  unfold lastN
  rw [List.take_of_length_le (by simpa using h), List.reverse_reverse]

/-- Length of the last-`n` window. -/
theorem lastN_length {α : Type} (n : Nat) (l : List α) :
    (lastN n l).length = min n l.length := by
  simp [lastN]

/-- One `detect_loop` call on the window of a history extends the window to
the new history's window. -/
theorem detectLoop_window (l : List String) (a : String) :
    (detectLoop (lastN 5 l) a).1 = lastN 5 (l ++ [a]) := by
  unfold detectLoop
  dsimp only
  by_cases hl : 5 ≤ l.length
  · have hw : (lastN 5 l).length = 5 := by rw [lastN_length]; omega
    rw [if_pos (by simp [hw])]
    rw [show (5 : Nat) = 4 + 1 from rfl, lastN_append_one, lastN_append_one,
      lastN_lastN 4 5 (by omega)]
  · have hll : lastN 5 l = l := lastN_of_length_le 5 l (by omega)
    rw [hll, if_neg (by simp; omega), lastN_of_length_le 5 (l ++ [a]) (by simp; omega)]

/-- The verdict of a `detect_loop` call is computed from the returned
window. -/
theorem detectLoop_verdict (w : List String) (a : String) :
    (detectLoop w a).2 =
      (decide (4 ≤ (detectLoop w a).1.length) && allSame (lastN 4 (detectLoop w a).1)) := rfl

/-- After any call sequence since the last reset, the kept window holds
exactly the last five signatures. -/
theorem runDetect_window (sigs : List String) : (runDetect sigs).1 = lastN 5 sigs := by
  induction sigs using List.reverseRecOn with
  | nil => rfl
  | append_singleton l a ih =>
    unfold runDetect at ih ⊢
    rw [List.foldl_append, List.foldl_cons, List.foldl_nil, ih]
    exact detectLoop_window l a

/-- After any call sequence since the last reset, the last verdict is true
iff at least four signatures were recorded and the last four are
identical. -/
theorem runDetect_verdict (sigs : List String) :
    (runDetect sigs).2 = (decide (4 ≤ sigs.length) && allSame (lastN 4 sigs)) := by
  induction sigs using List.reverseRecOn with
  | nil => rfl
  | append_singleton l a ih =>
    have hw : (runDetect (l ++ [a])).1 = lastN 5 (l ++ [a]) := runDetect_window (l ++ [a])
    have hstep : runDetect (l ++ [a]) = detectLoop (runDetect l).1 a := by
      unfold runDetect
      rw [List.foldl_append, List.foldl_cons, List.foldl_nil]
    rw [hstep, detectLoop_verdict, ← hstep, hw]
    rw [lastN_length, lastN_lastN 4 5 (by omega)]
    congr 1
    rw [decide_eq_decide]
    omega

/-- `detect_loop` keeps a sliding window of the last five signatures and
signals a loop exactly when the last four recorded signatures are
identical; in particular any four consecutive identical signatures are
detected on the fourth call. -/
theorem detect_loop_exactly_on_four_identical :
    (∀ sigs : List String, (runDetect sigs).1 = lastN 5 sigs ∧
      (runDetect sigs).2 = (decide (4 ≤ sigs.length) && allSame (lastN 4 sigs))) ∧
    (∀ (p : List String) (a : String), (runDetect (p ++ [a, a, a, a])).2 = true) := by
  refine ⟨fun sigs => ⟨runDetect_window sigs, runDetect_verdict sigs⟩, fun p a => ?_⟩
  rw [runDetect_verdict]
  have h4 : lastN 4 (p ++ [a, a, a, a]) = [a, a, a, a] := by
    simp [lastN, List.reverse_append]
  rw [h4]
  simp [allSame]

end BCOS
